import Mathlib

/-!
Verification of the message-packing and training-orchestration core of the
NLP2EmergentLanguage repository (`src/attribute_game/pl_model.py` and the
Message Packer contract).  Tensors are shallowly embedded as nested lists of
rationals in time-major layout `(msg_len, batch, n_symbols)`; the sender,
receiver, predictor and loss modules are external collaborators and are
embedded as abstract function fields.  Fallible collaborator calls return
`Except`, and the mutable training/evaluation mode flags of the networks are
threaded explicitly through the validation steps.
-/

namespace AttributeGame

/-- Tensor scalars are embedded as rationals. -/
abbrev Scalar := ℚ

/-- One per-symbol distribution (the innermost `n_symbols` axis). -/
abbrev Frame := List Scalar

/-- One timestep of a message: one `Frame` per batch element. -/
abbrev TimeStep := List Frame

/-- A Message: `msg_len` timesteps, time-major `(msg_len, batch, n_symbols)`. -/
abbrev Msg := List TimeStep

/-- Receiver output over candidate images: one row per batch element. -/
abbrev Out := List Frame

/-- A recurrent hidden state (opaque to the orchestrator). -/
abbrev Hidden := List Scalar

/-- One input image (opaque to the orchestrator). -/
abbrev Image := List Scalar

/-- The receiver's candidate images (opaque to the orchestrator). -/
abbrev Choices := List Image

/-- Auxiliary loop of `torch.argmax` over one axis: index of the first
maximal entry, scanning left to right. -/
def argmaxAux : Nat → Nat → Scalar → List Scalar → Nat
  | _, best, _, [] => best
  | i, best, bestVal, x :: xs =>
      if bestVal < x then argmaxAux (i + 1) i x xs
      else argmaxAux (i + 1) best bestVal xs

/-- `torch.argmax` over the last axis of a single frame (first maximum wins;
0 on an empty frame). -/
def argmax : List Scalar → Nat
  | [] => 0
  | x :: xs => argmaxAux 1 0 x xs

/-- `(xs == ys).sum().item()`: the number of positions where the two index
sequences agree. -/
def countEq (xs ys : List Nat) : Nat :=
  (xs.zip ys).countP (fun p => p.1 == p.2)

/-- Index of the first stop symbol (symbol index 0) in a discrete symbol
sequence, if any. -/
def firstStop : List Nat → Option Nat
  | [] => none
  | s :: rest => if s = 0 then some 0 else (firstStop rest).map (· + 1)

/-- Modelled from the spec: the Message Packer's per-sequence effective
length (`attribute_game/utils.py` is not under `src/`).  If the first stop
symbol is at position `i` the effective length is `i + 1`; with no stop
symbol it is `maxLen`. -/
def effectiveLength (maxLen : Nat) (seq : List Nat) : Nat :=
  match firstStop seq with
  | some i => i + 1
  | none => maxLen

/-- Modelled from the spec: the argmax-decoded discrete symbol sequences of a
Message, batch-major (one `List Nat` of symbol indices per batch element). -/
def symbolSeqs (msg : Msg) : List (List Nat) :=
  (msg.map (fun ts => ts.map argmax)).transpose

/-- A packed message: the original tensor data annotated with the
per-sequence effective lengths. -/
structure PackedMsg where
  data : Msg
  lengths : List Nat
deriving DecidableEq

/-- Modelled from the spec: `pack(message, max_len)` from
`attribute_game/utils.py`, which is not under `src/`.  Argmax-decode each
position, truncate each batch sequence at its first stop symbol (length
`i + 1`, or `max_len` when none occurs), and carry the data with the vector
of effective lengths. -/
def pack (msg : Msg) (maxLen : Nat) : PackedMsg :=
  ⟨msg, (symbolSeqs msg).map (effectiveLength maxLen)⟩

/-- The three shapes of second argument the receiver collaborator can be
invoked with, depending on the orchestrator variant. -/
inductive ReceiverInput where
  | raw (m : Msg)
  | packed (p : PackedMsg)
  | hiddenState (h : Hidden)
deriving DecidableEq

/-- The sender collaborator: produces a Message from an image batch and
exposes `msg_len`, `n_symbols` and its learnable parameters. -/
structure Sender where
  msg_len : Nat
  n_symbols : Nat
  forward : List Image → Msg
  params : List Nat

/-- The receiver collaborator: consumes candidate images plus a message
representation and returns `(out, out_probs)`. -/
structure Receiver where
  forward : Choices → ReceiverInput → Out × Out
  params : List Nat

/-- The predictor collaborator: consumes a message (with start frame) and
returns `(logits, probs, final_hidden_state)`. -/
structure Predictor where
  forward : Msg → Msg × Msg × Hidden
  params : List Nat

/-- The receiver loss module `(out_probs, target) -> scalar`; it may raise. -/
abbrev LossFn := Out → List Nat → Except Unit Scalar

/-- The predictor loss module
`(flattened_logits, flattened_targets, ignore_index) -> scalar`; the ignore
index is an optional integer (Python's keyword argument); it may raise. -/
abbrev PredLossFn := List Frame → List Frame → Option ℤ → Except Unit Scalar

/-- The hyperparameter mapping consumed by the orchestrators. -/
structure HParams where
  learning_rate : Scalar
  predictor_loss_weight : Scalar

/-- One batch from the data loader:
`(sender_image, receiver_candidate_images, integer_target_index)`. -/
structure Batch where
  sender_img : List Image
  receiver_imgs : Choices
  target : List Nat

/-- The single Adam optimizer built by `configure_optimizers`: the parameter
list it owns and its learning rate. -/
structure Optimizer where
  params : List Nat
  lr : Scalar

/-- The training/evaluation mode flags of the three networks
(`true` = training mode). -/
structure Modes where
  sender : Bool
  receiver : Bool
  predictor : Bool
deriving DecidableEq

/-- `torch.zeros(1, batch_size, n_symbols)`: the zero-filled
start-of-sequence frame prepended to the message. -/
def startSymbols (batchSize nSymbols : Nat) : TimeStep :=
  List.replicate batchSize (List.replicate nSymbols 0)

/-! ## AttributeBaseLineModel (`pl_model.py` lines 9-88) -/

structure AttributeBaseLineModel where
  sender : Sender
  receiver : Receiver
  loss_module : LossFn
  hparams : HParams
  pack_message : Bool

/-- The 6-tuple returned by `AttributeBaseLineModel.forward`
(the last two components are `None`), extended with a trace of which
representation the receiver was invoked with. -/
structure BaselineForwardOut where
  msg : Msg
  msg_packed : Option PackedMsg
  out : Out
  out_probs : Out
  receiver_input : ReceiverInput

/-- `AttributeBaseLineModel.forward` (lines 21-30): send, optionally pack,
and run the receiver on the packed or raw message. -/
def AttributeBaseLineModel.forward (m : AttributeBaseLineModel)
    (sender_img : List Image) (receiver_choices : Choices) :
    BaselineForwardOut :=
  let msg := m.sender.forward sender_img
  if m.pack_message then
    let msg_packed := pack msg m.sender.msg_len
    let r := m.receiver.forward receiver_choices (.packed msg_packed)
    ⟨msg, some msg_packed, r.1, r.2, .packed msg_packed⟩
  else
    let r := m.receiver.forward receiver_choices (.raw msg)
    ⟨msg, none, r.1, r.2, .raw msg⟩

/-- The scalar results and logged metrics of one baseline step.  `loss` is
the value returned to the framework. -/
structure BaseStepOut where
  loss : Scalar
  accuracy : Scalar
  logs : List (String × Scalar)
deriving DecidableEq

/-- `AttributeBaseLineModel.training_step` (lines 32-51): forward, receiver
loss, accuracy, logging; returns the loss. -/
def AttributeBaseLineModel.training_step (m : AttributeBaseLineModel)
    (batch : Batch) : Except Unit BaseStepOut :=
  let batch_size := batch.sender_img.length
  let f := m.forward batch.sender_img batch.receiver_imgs
  match m.loss_module f.out_probs batch.target with
  | .error e => .error e
  | .ok loss =>
    let predicted_indices := f.out_probs.map argmax
    let correct : Scalar := (countEq predicted_indices batch.target : Scalar)
      / (batch_size : Scalar)
    .ok ⟨loss, correct,
      [("loss_receiver", loss), ("total_loss", loss), ("accuracy", correct)]⟩

/-- `AttributeBaseLineModel.validation_step` (lines 53-81): switch sender and
receiver to evaluation mode, compute as in training with `val_`-named logs,
then switch back to training mode.  A raising loss module propagates as
`.error` carrying the mode flags as they stand at the raise. -/
def AttributeBaseLineModel.validation_step (m : AttributeBaseLineModel)
    (batch : Batch) (modes : Modes) : Except Modes (Modes × BaseStepOut) :=
  let modes := { modes with sender := false, receiver := false }
  let batch_size := batch.sender_img.length
  let f := m.forward batch.sender_img batch.receiver_imgs
  match m.loss_module f.out_probs batch.target with
  | .error _ => .error modes
  | .ok loss =>
    let predicted_indices := f.out_probs.map argmax
    let correct : Scalar := (countEq predicted_indices batch.target : Scalar)
      / (batch_size : Scalar)
    .ok ({ modes with sender := true, receiver := true },
      ⟨loss, correct,
        [("val_loss_receiver", loss), ("val_total_loss", loss),
         ("val_accuracy", correct)]⟩)

/-- `AttributeBaseLineModel.configure_optimizers` (lines 82-88): one Adam
optimizer over the sender's plus the receiver's parameters. -/
def AttributeBaseLineModel.configure_optimizers (m : AttributeBaseLineModel) :
    Optimizer :=
  ⟨m.sender.params ++ m.receiver.params, m.hparams.learning_rate⟩

/-! ## AttributeModelWithPrediction (`pl_model.py` lines 91-223) -/

structure AttributeModelWithPrediction where
  sender : Sender
  receiver : Receiver
  predictor : Predictor
  loss_module_predictor : PredLossFn
  loss_module : LossFn
  hparams : HParams
  pack_message : Bool

/-- The 6-tuple returned by `AttributeModelWithPrediction.forward`, extended
with a trace of which representation the receiver was invoked with. -/
structure PredForwardOut where
  msg : Msg
  packed_msg : Option PackedMsg
  out : Out
  out_probs : Out
  prediction_logits : Msg
  prediction_probs : Msg
  receiver_input : ReceiverInput

/-- `AttributeModelWithPrediction.forward` (lines 104-123): send, prepend the
zero start frame, run the predictor over the extended sequence and drop its
last timestep, then run the receiver on the packed or raw message. -/
def AttributeModelWithPrediction.forward (m : AttributeModelWithPrediction)
    (sender_img : List Image) (receiver_choices : Choices) : PredForwardOut :=
  let msg := m.sender.forward sender_img
  let start_symbols := startSymbols sender_img.length m.sender.n_symbols
  let msgs := start_symbols :: msg
  let p := m.predictor.forward msgs
  let prediction_logits := p.1.dropLast
  let prediction_probs := p.2.1.dropLast
  if m.pack_message then
    let packed_msg := pack msg m.sender.msg_len
    let r := m.receiver.forward receiver_choices (.packed packed_msg)
    ⟨msg, some packed_msg, r.1, r.2, prediction_logits, prediction_probs,
      .packed packed_msg⟩
  else
    let r := m.receiver.forward receiver_choices (.raw msg)
    ⟨msg, none, r.1, r.2, prediction_logits, prediction_probs, .raw msg⟩

/-- The scalar results and logged metrics of one predictor-bearing step.
`loss` is the total returned to the framework. -/
structure PredStepOut where
  loss_predictor : Scalar
  loss_receiver : Scalar
  loss : Scalar
  predictor_accuracy : Scalar
  accuracy : Scalar
  logs : List (String × Scalar)
deriving DecidableEq

/-- `AttributeModelWithPrediction.training_step` (lines 125-161): forward,
predictor loss with `ignore_index = n_symbols - 1`, predictor accuracy,
receiver loss, total `loss_receiver + predictor_loss_weight * loss_predictor`,
receiver accuracy, logging; returns the total. -/
def AttributeModelWithPrediction.training_step
    (m : AttributeModelWithPrediction) (batch : Batch) :
    Except Unit PredStepOut :=
  let batch_size := batch.sender_img.length
  let f := m.forward batch.sender_img batch.receiver_imgs
  let prediction_squeezed := f.prediction_logits.flatten
  let prediction_probs := f.prediction_probs.flatten
  let msg_target := f.msg.flatten
  match m.loss_module_predictor prediction_squeezed msg_target
      (some ((m.sender.n_symbols : ℤ) - 1)) with
  | .error e => .error e
  | .ok loss_predictor =>
    let indices := msg_target.map argmax
    let accuracyPredictions := prediction_probs.map argmax
    let correct := countEq accuracyPredictions indices
    let predictor_accuracy : Scalar :=
      (correct : Scalar) / (indices.length : Scalar)
    match m.loss_module f.out_probs batch.target with
    | .error e => .error e
    | .ok loss_receiver =>
      let loss := loss_receiver
        + m.hparams.predictor_loss_weight * loss_predictor
      let predicted_indices := f.out_probs.map argmax
      let correct2 : Scalar := (countEq predicted_indices batch.target : Scalar)
        / (batch_size : Scalar)
      .ok ⟨loss_predictor, loss_receiver, loss, predictor_accuracy, correct2,
        [("accuracy predictor", predictor_accuracy),
         ("loss_predictor", loss_predictor),
         ("loss_receiver", loss_receiver),
         ("total_loss", loss),
         ("accuracy", correct2)]⟩

/-- `AttributeModelWithPrediction.validation_step` (lines 165-213): switch
all three networks to evaluation mode, compute exactly as in the training
step with `val`-marked log names, then switch back to training mode.  A
raising loss module propagates as `.error` carrying the mode flags as they
stand at the raise. -/
def AttributeModelWithPrediction.validation_step
    (m : AttributeModelWithPrediction) (batch : Batch) (modes : Modes) :
    Except Modes (Modes × PredStepOut) :=
  let modes := { modes with sender := false, receiver := false,
                            predictor := false }
  let batch_size := batch.sender_img.length
  let f := m.forward batch.sender_img batch.receiver_imgs
  let prediction_squeezed := f.prediction_logits.flatten
  let prediction_probs := f.prediction_probs.flatten
  let msg_target := f.msg.flatten
  match m.loss_module_predictor prediction_squeezed msg_target
      (some ((m.sender.n_symbols : ℤ) - 1)) with
  | .error _ => .error modes
  | .ok loss_predictor =>
    let indices := msg_target.map argmax
    let accuracyPredictions := prediction_probs.map argmax
    let correct := countEq accuracyPredictions indices
    let predictor_accuracy : Scalar :=
      (correct : Scalar) / (indices.length : Scalar)
    match m.loss_module f.out_probs batch.target with
    | .error _ => .error modes
    | .ok loss_receiver =>
      let loss := loss_receiver
        + m.hparams.predictor_loss_weight * loss_predictor
      let predicted_indices := f.out_probs.map argmax
      let correct2 : Scalar := (countEq predicted_indices batch.target : Scalar)
        / (batch_size : Scalar)
      .ok ({ modes with sender := true, receiver := true, predictor := true },
        ⟨loss_predictor, loss_receiver, loss, predictor_accuracy, correct2,
          [("val accuracy predictor", predictor_accuracy),
           ("val_loss_predictor", loss_predictor),
           ("val_loss_receiver", loss_receiver),
           ("val_total_loss", loss),
           ("val_accuracy", correct2)]⟩)

/-- `AttributeModelWithPrediction.configure_optimizers` (lines 216-223): one
Adam optimizer over the sender's, receiver's and predictor's parameters. -/
def AttributeModelWithPrediction.configure_optimizers
    (m : AttributeModelWithPrediction) : Optimizer :=
  ⟨m.sender.params ++ m.receiver.params ++ m.predictor.params,
   m.hparams.learning_rate⟩

/-! ## AttributeModelMerged (`pl_model.py` lines 226-302)

The Merged training step destructures the 6-tuple returned by `forward` into
only 5 names, which in Python raises a `ValueError` at runtime.  To capture
that behaviour the tuple is embedded at the Python level as a `List Obj` of
runtime objects and the unpacking as a length-checked operation. -/

structure AttributeModelMerged where
  sender : Sender
  receiver : Receiver
  predictor : Predictor
  loss_module_predictor : PredLossFn
  loss_module : LossFn
  hparams : HParams

/-- The components of `AttributeModelMerged.forward`, extended with a trace
of which representation the receiver was invoked with. -/
structure MergedForwardOut where
  msg : Msg
  packed_msg : PackedMsg
  out : Out
  out_probs : Out
  prediction_logits : Msg
  prediction_probs : Msg
  receiver_input : ReceiverInput

/-- `AttributeModelMerged.forward` (lines 239-256): send, pack
unconditionally, prepend the zero start frame, run the predictor and drop
its last timestep, then run the receiver on the predictor's final hidden
state. -/
def AttributeModelMerged.forward (m : AttributeModelMerged)
    (sender_img : List Image) (receiver_choices : Choices) :
    MergedForwardOut :=
  let msg := m.sender.forward sender_img
  let start_symbols := startSymbols sender_img.length m.sender.n_symbols
  let packed_msg := pack msg m.sender.msg_len
  let msgs := start_symbols :: msg
  let p := m.predictor.forward msgs
  let prediction_logits := p.1.dropLast
  let prediction_probs := p.2.1.dropLast
  let last_hidden := p.2.2
  let r := m.receiver.forward receiver_choices (.hiddenState last_hidden)
  ⟨msg, packed_msg, r.1, r.2, prediction_logits, prediction_probs,
    .hiddenState last_hidden⟩

/-- A Python runtime object as it appears in the `forward` return tuple. -/
inductive Obj where
  | tensor3 (m : Msg)
  | tensor2 (o : Out)
  | packedSeq (p : PackedMsg)
deriving DecidableEq

/-- The Python runtime errors the Merged training step can surface. -/
inductive PyError where
  | valueError
  | typeError
  | lossError
deriving DecidableEq

/-- The 6-tuple that `AttributeModelMerged.forward` (line 256) returns at the
Python level:
`(msg, packed_msg, out, out_probs, prediction_logits, prediction_probs)`. -/
def AttributeModelMerged.forwardTuple (m : AttributeModelMerged)
    (sender_img : List Image) (receiver_choices : Choices) : List Obj :=
  let f := m.forward sender_img receiver_choices
  [.tensor3 f.msg, .packedSeq f.packed_msg, .tensor2 f.out,
   .tensor2 f.out_probs, .tensor3 f.prediction_logits,
   .tensor3 f.prediction_probs]

/-- Python iterable unpacking into exactly 5 names: any other arity raises a
`ValueError`. -/
def unpack5 (l : List Obj) : Except PyError (Obj × Obj × Obj × Obj × Obj) :=
  match l with
  | [a, b, c, d, e] => .ok (a, b, c, d, e)
  | _ => .error .valueError

/-- Interpret a runtime object as a 3-d tensor. -/
def asTensor3 : Obj → Except PyError Msg
  | .tensor3 x => .ok x
  | _ => .error .typeError

/-- Interpret a runtime object as a 2-d tensor. -/
def asTensor2 : Obj → Except PyError Out
  | .tensor2 x => .ok x
  | _ => .error .typeError

/-- The body of `AttributeModelMerged.training_step` after the destructuring
assignment (lines 267-293), over the five bound names
`msg, out, out_probs, prediction_logits, prediction_probs`.  The predictor
loss is called with no ignore index (line 272). -/
def AttributeModelMerged.training_step_body (m : AttributeModelMerged)
    (batch : Batch) (msgO outO out_probsO plO ppO : Obj) :
    Except PyError PredStepOut :=
  let batch_size := batch.sender_img.length
  match asTensor3 msgO, asTensor2 outO, asTensor2 out_probsO,
      asTensor3 plO, asTensor3 ppO with
  | .ok msg, .ok _out, .ok out_probs, .ok prediction_logitsT,
      .ok prediction_probsT =>
    let prediction_squeezed := prediction_logitsT.flatten
    let prediction_probs := prediction_probsT.flatten
    let msg_target := msg.flatten
    match (m.loss_module_predictor prediction_squeezed msg_target none).mapError
        (fun _ => PyError.lossError) with
    | .error e => .error e
    | .ok loss_predictor =>
      let indices := msg_target.map argmax
      let accuracyPredictions := prediction_probs.map argmax
      let correct := countEq accuracyPredictions indices
      let predictor_accuracy : Scalar :=
        (correct : Scalar) / (indices.length : Scalar)
      match (m.loss_module out_probs batch.target).mapError
          (fun _ => PyError.lossError) with
      | .error e => .error e
      | .ok loss_receiver =>
        let loss := loss_receiver
          + m.hparams.predictor_loss_weight * loss_predictor
        let predicted_indices := out_probs.map argmax
        let correct2 : Scalar := (countEq predicted_indices batch.target : Scalar)
          / (batch_size : Scalar)
        .ok ⟨loss_predictor, loss_receiver, loss, predictor_accuracy, correct2,
          [("accuracy predictor", predictor_accuracy),
           ("loss_predictor", loss_predictor),
           ("loss_receiver", loss_receiver),
           ("total_loss", loss),
           ("accuracy", correct2)]⟩
  | _, _, _, _, _ => .error .typeError

/-- `AttributeModelMerged.training_step` (lines 258-293): destructure the
6-tuple returned by `forward` into 5 names (line 265), then run the body. -/
def AttributeModelMerged.training_step (m : AttributeModelMerged)
    (batch : Batch) : Except PyError PredStepOut :=
  match unpack5 (m.forwardTuple batch.sender_img batch.receiver_imgs) with
  | .error e => .error e
  | .ok (a, b, c, d, e) => m.training_step_body batch a b c d e

/-- `AttributeModelMerged.configure_optimizers` (lines 295-302): one Adam
optimizer over the sender's, receiver's and predictor's parameters. -/
def AttributeModelMerged.configure_optimizers (m : AttributeModelMerged) :
    Optimizer :=
  ⟨m.sender.params ++ m.receiver.params ++ m.predictor.params,
   m.hparams.learning_rate⟩

/-! ## Concrete instances used in end-to-end scenarios -/

/-- One-hot frame for symbol 0 (the stop symbol) with `n_symbols = 3`. -/
def oh0 : Frame := [1, 0, 0]

/-- One-hot frame for symbol 1 with `n_symbols = 3`. -/
def oh1 : Frame := [0, 1, 0]

/-- One-hot frame for symbol 2 with `n_symbols = 3`. -/
def oh2 : Frame := [0, 0, 1]

/-- The spec's end-to-end packing scenario: `msg_len = 5`, `n_symbols = 3`,
batch size 4, time-major; batch sequence 0 decodes to `[1, 2, 0, 1, 1]`
(stop symbol at timestep 2) and no other sequence contains a stop symbol. -/
def exampleMsg : Msg :=
  [[oh1, oh1, oh2, oh1],
   [oh2, oh1, oh2, oh2],
   [oh0, oh1, oh2, oh1],
   [oh1, oh1, oh2, oh2],
   [oh1, oh1, oh2, oh1]]

/-- A one-timestep, one-element-batch, two-symbol message. -/
def cMsg : Msg := [[[0, 1]]]

/-- A concrete sender with `msg_len = 1`, `n_symbols = 2` that always emits
`cMsg`. -/
def cSender : Sender := ⟨1, 2, fun _ => cMsg, [0]⟩

/-- A concrete receiver that always answers with distribution `[0, 1]` for
its single batch row. -/
def cReceiver : Receiver := ⟨fun _ _ => ([[0, 1]], [[0, 1]]), [1]⟩

/-- A concrete predictor echoing its input (hence length-preserving) with
hidden state `[0]`. -/
def cPredictor : Predictor := ⟨fun inp => (inp, inp, [0]), [2]⟩

/-- A receiver loss module that always succeeds with loss 2. -/
def okLoss : LossFn := fun _ _ => .ok 2

/-- A predictor loss module that always succeeds with loss 1. -/
def okPredLoss : PredLossFn := fun _ _ _ => .ok 1

/-- A receiver loss module that always raises. -/
def badLoss : LossFn := fun _ _ => .error ()

/-- Concrete hyperparameters: learning rate 1, predictor loss weight 1/2. -/
def cHparams : HParams := ⟨1, 1/2⟩

/-- A concrete batch of size 1 with target index 1. -/
def cBatch : Batch := ⟨[[0]], [], [1]⟩

/-- A concrete baseline model with packing enabled. -/
def cBaseline : AttributeBaseLineModel :=
  ⟨cSender, cReceiver, okLoss, cHparams, true⟩

/-- A concrete baseline model whose receiver loss module raises. -/
def cBaselineBad : AttributeBaseLineModel :=
  ⟨cSender, cReceiver, badLoss, cHparams, false⟩

/-- A concrete with-prediction model with packing enabled. -/
def cWithPred : AttributeModelWithPrediction :=
  ⟨cSender, cReceiver, cPredictor, okPredLoss, okLoss, cHparams, true⟩

/-- A concrete merged model. -/
def cMerged : AttributeModelMerged :=
  ⟨cSender, cReceiver, cPredictor, okPredLoss, okLoss, cHparams⟩

/-- The result of `cBaseline.training_step cBatch`. -/
def cBaselineTrainOut : BaseStepOut :=
  ⟨2, 1, [("loss_receiver", 2), ("total_loss", 2), ("accuracy", 1)]⟩

/-- The result of `cBaseline.validation_step cBatch` on all-training modes. -/
def cBaselineValOut : Modes × BaseStepOut :=
  (⟨true, true, true⟩,
   ⟨2, 1, [("val_loss_receiver", 2), ("val_total_loss", 2),
           ("val_accuracy", 1)]⟩)

/-- The result of `cWithPred.training_step cBatch`. -/
def cWithPredTrainOut : PredStepOut :=
  ⟨1, 2, 5/2, 0, 1,
   [("accuracy predictor", 0), ("loss_predictor", 1),
    ("loss_receiver", 2), ("total_loss", 5/2), ("accuracy", 1)]⟩

/-- The result of `cWithPred.validation_step cBatch` on all-training modes. -/
def cWithPredValOut : Modes × PredStepOut :=
  (⟨true, true, true⟩,
   ⟨1, 2, 5/2, 0, 1,
    [("val accuracy predictor", 0), ("val_loss_predictor", 1),
     ("val_loss_receiver", 2), ("val_total_loss", 5/2),
     ("val_accuracy", 1)]⟩)

/-! ## Named projections of step-internal expressions -/

/-- The forward output used inside a with-prediction step on a batch. -/
def AttributeModelWithPrediction.fwd (m : AttributeModelWithPrediction)
    (batch : Batch) : PredForwardOut :=
  m.forward batch.sender_img batch.receiver_imgs

/-- `prediction_logits.reshape(-1, n_symbols)`: the first argument of the
predictor loss call (lines 135, 139). -/
def AttributeModelWithPrediction.predLossArgLogits
    (m : AttributeModelWithPrediction) (batch : Batch) : List Frame :=
  (m.fwd batch).prediction_logits.flatten

/-- `msg.reshape(-1, n_symbols)`: the second argument of the predictor loss
call (lines 137, 139). -/
def AttributeModelWithPrediction.predLossArgTarget
    (m : AttributeModelWithPrediction) (batch : Batch) : List Frame :=
  (m.fwd batch).msg.flatten

/-- The ignore index passed to the predictor loss (lines 140, 189):
`n_symbols - 1`. -/
def AttributeModelWithPrediction.predLossIgnore
    (m : AttributeModelWithPrediction) : Option ℤ :=
  some ((m.sender.n_symbols : ℤ) - 1)

/-- The predictor accuracy computed in lines 141-145:
matches of `argmax(prediction_probs)` against `argmax(msg)` over the
flattened time-by-batch positions, divided by the number of positions. -/
def AttributeModelWithPrediction.predictorAccuracy
    (m : AttributeModelWithPrediction) (batch : Batch) : Scalar :=
  (countEq ((m.fwd batch).prediction_probs.flatten.map argmax)
      ((m.fwd batch).msg.flatten.map argmax) : Scalar)
    / (((m.fwd batch).msg.flatten.map argmax).length : Scalar)

/-- The receiver accuracy computed in lines 152-154: matches of
`argmax(out_probs)` against the target, divided by the batch size. -/
def AttributeModelWithPrediction.receiverAccuracy
    (m : AttributeModelWithPrediction) (batch : Batch) : Scalar :=
  (countEq ((m.fwd batch).out_probs.map argmax) batch.target : Scalar)
    / (batch.sender_img.length : Scalar)

/-- The receiver accuracy computed in the baseline step (lines 43-45). -/
def AttributeBaseLineModel.receiverAccuracy (m : AttributeBaseLineModel)
    (batch : Batch) : Scalar :=
  (countEq ((m.forward batch.sender_img batch.receiver_imgs).out_probs.map
      argmax) batch.target : Scalar)
    / (batch.sender_img.length : Scalar)

/-! ## Helper lemmas -/

theorem firstStop_eq_some (seq : List Nat) (i : Nat)
    (h0 : seq[i]? = some 0) (hmin : ∀ j, j < i → seq[j]? ≠ some 0) :
    firstStop seq = some i := by
  induction seq generalizing i with
  | nil => simp at h0
  | cons s rest ih =>
    cases i with
    | zero =>
      simp at h0
      simp [firstStop, h0]
    | succ i' =>
      have hs : s ≠ 0 := by
        intro hs0
        exact hmin 0 (Nat.succ_pos _) (by simp [hs0])
      have h0' : rest[i']? = some 0 := by simpa using h0
      have hmin' : ∀ j, j < i' → rest[j]? ≠ some 0 := by
        intro j hj
        have hj2 := hmin (j + 1) (Nat.succ_lt_succ hj)
        simpa using hj2
      simp [firstStop, hs, ih i' h0' hmin']

theorem firstStop_eq_none (seq : List Nat) (h : ∀ x ∈ seq, x ≠ 0) :
    firstStop seq = none := by
  induction seq with
  | nil => rfl
  | cons s rest ih =>
    have hs : s ≠ 0 := h s (List.mem_cons_self _ _)
    simp [firstStop, hs, ih (fun x hx => h x (List.mem_cons_of_mem _ hx))]

theorem flatten_getElem_rect {α : Type} (L : List (List α)) (B : Nat)
    (hB : ∀ r ∈ L, r.length = B) (t b : Nat) (ht : t < L.length) (hb : b < B) :
    L.flatten[t * B + b]? = L[t]?.bind (fun r => r[b]?) := by
  induction L generalizing t with
  | nil => simp at ht
  | cons r rest ih =>
    have hr : r.length = B := hB r (List.mem_cons_self _ _)
    cases t with
    | zero =>
      have hb' : b < r.length := by omega
      rw [List.flatten_cons, Nat.zero_mul, Nat.zero_add,
        List.getElem?_append_left hb']
      simp
    | succ t' =>
      have hge : r.length ≤ (t' + 1) * B + b := by
        rw [hr]
        calc B ≤ (t' + 1) * B := Nat.le_mul_of_pos_left B (Nat.succ_pos t')
        _ ≤ (t' + 1) * B + b := Nat.le_add_right _ _
      rw [List.flatten_cons, List.getElem?_append_right hge]
      have harith : (t' + 1) * B + b - r.length = t' * B + b := by
        rw [hr, Nat.succ_mul]
        omega
      rw [harith]
      have ht' : t' < rest.length := by simpa using ht
      rw [ih (fun x hx => hB x (List.mem_cons_of_mem _ hx)) t' ht']
      simp

theorem countEq_le_right (xs ys : List Nat) : countEq xs ys ≤ ys.length := by
  calc countEq xs ys ≤ (xs.zip ys).length := List.countP_le_length _
  _ ≤ ys.length := by rw [List.length_zip]; exact Nat.min_le_right _ _

theorem flatten_length_rect {α : Type} (L : List (List α)) (B : Nat)
    (hB : ∀ r ∈ L, r.length = B) : L.flatten.length = L.length * B := by
  induction L with
  | nil => simp
  | cons r rest ih =>
    have hr := hB r (List.mem_cons_self _ _)
    have ih' := ih (fun x hx => hB x (List.mem_cons_of_mem _ hx))
    rw [List.flatten_cons, List.length_append, hr, ih', List.length_cons,
      Nat.succ_mul]
    omega

theorem baseline_training_step_unfold (m : AttributeBaseLineModel)
    (batch : Batch) :
    m.training_step batch =
      (match m.loss_module (m.forward batch.sender_img batch.receiver_imgs).out_probs
          batch.target with
       | .error e => .error e
       | .ok loss =>
         .ok ⟨loss, m.receiverAccuracy batch,
           [("loss_receiver", loss), ("total_loss", loss),
            ("accuracy", m.receiverAccuracy batch)]⟩) := rfl

theorem baseline_validation_step_unfold (m : AttributeBaseLineModel)
    (batch : Batch) (modes : Modes) :
    m.validation_step batch modes =
      (match m.loss_module (m.forward batch.sender_img batch.receiver_imgs).out_probs
          batch.target with
       | .error _ => .error ⟨false, false, modes.predictor⟩
       | .ok loss =>
         .ok (⟨true, true, modes.predictor⟩,
           ⟨loss, m.receiverAccuracy batch,
            [("val_loss_receiver", loss), ("val_total_loss", loss),
             ("val_accuracy", m.receiverAccuracy batch)]⟩)) := rfl

theorem withPred_training_step_unfold (m : AttributeModelWithPrediction)
    (batch : Batch) :
    m.training_step batch =
      (match m.loss_module_predictor (m.predLossArgLogits batch)
          (m.predLossArgTarget batch) m.predLossIgnore with
       | .error e => .error e
       | .ok lp =>
         match m.loss_module (m.fwd batch).out_probs batch.target with
         | .error e => .error e
         | .ok lr =>
           .ok ⟨lp, lr, lr + m.hparams.predictor_loss_weight * lp,
             m.predictorAccuracy batch, m.receiverAccuracy batch,
             [("accuracy predictor", m.predictorAccuracy batch),
              ("loss_predictor", lp), ("loss_receiver", lr),
              ("total_loss", lr + m.hparams.predictor_loss_weight * lp),
              ("accuracy", m.receiverAccuracy batch)]⟩) := rfl

theorem withPred_validation_step_unfold (m : AttributeModelWithPrediction)
    (batch : Batch) (modes : Modes) :
    m.validation_step batch modes =
      (match m.loss_module_predictor (m.predLossArgLogits batch)
          (m.predLossArgTarget batch) m.predLossIgnore with
       | .error _ => .error ⟨false, false, false⟩
       | .ok lp =>
         match m.loss_module (m.fwd batch).out_probs batch.target with
         | .error _ => .error ⟨false, false, false⟩
         | .ok lr =>
           .ok (⟨true, true, true⟩,
             ⟨lp, lr, lr + m.hparams.predictor_loss_weight * lp,
              m.predictorAccuracy batch, m.receiverAccuracy batch,
              [("val accuracy predictor", m.predictorAccuracy batch),
               ("val_loss_predictor", lp), ("val_loss_receiver", lr),
               ("val_total_loss", lr + m.hparams.predictor_loss_weight * lp),
               ("val_accuracy", m.receiverAccuracy batch)]⟩)) := rfl

theorem merged_body_unfold (m : AttributeModelMerged) (batch : Batch)
    (msg : Msg) (o op : Out) (pl pp : Msg) :
    m.training_step_body batch (.tensor3 msg) (.tensor2 o) (.tensor2 op)
        (.tensor3 pl) (.tensor3 pp) =
      (match (m.loss_module_predictor pl.flatten msg.flatten none).mapError
          (fun _ => PyError.lossError) with
       | .error e => .error e
       | .ok lp =>
         match (m.loss_module op batch.target).mapError
             (fun _ => PyError.lossError) with
         | .error e => .error e
         | .ok lr =>
           .ok ⟨lp, lr, lr + m.hparams.predictor_loss_weight * lp,
             (countEq (pp.flatten.map argmax) (msg.flatten.map argmax) : Scalar)
               / ((msg.flatten.map argmax).length : Scalar),
             (countEq (op.map argmax) batch.target : Scalar)
               / (batch.sender_img.length : Scalar),
             [("accuracy predictor",
               (countEq (pp.flatten.map argmax) (msg.flatten.map argmax) : Scalar)
                 / ((msg.flatten.map argmax).length : Scalar)),
              ("loss_predictor", lp), ("loss_receiver", lr),
              ("total_loss", lr + m.hparams.predictor_loss_weight * lp),
              ("accuracy",
               (countEq (op.map argmax) batch.target : Scalar)
                 / (batch.sender_img.length : Scalar))]⟩) := rfl

theorem cBaseline_training_step_eq :
    cBaseline.training_step cBatch = .ok cBaselineTrainOut := by
  norm_num [AttributeBaseLineModel.training_step, AttributeBaseLineModel.forward,
    cBaseline, cBatch, cSender, cReceiver, okLoss, cHparams, cMsg,
    cBaselineTrainOut, pack, symbolSeqs, argmax, argmaxAux, countEq,
    effectiveLength, firstStop]

theorem cBaseline_validation_step_eq :
    cBaseline.validation_step cBatch ⟨true, true, true⟩ =
      .ok cBaselineValOut := by
  norm_num [AttributeBaseLineModel.validation_step, AttributeBaseLineModel.forward,
    cBaseline, cBatch, cSender, cReceiver, okLoss, cHparams, cMsg,
    cBaselineValOut, pack, symbolSeqs, argmax, argmaxAux, countEq,
    effectiveLength, firstStop]

theorem cWithPred_training_step_eq :
    cWithPred.training_step cBatch = .ok cWithPredTrainOut := by
  norm_num [AttributeModelWithPrediction.training_step,
    AttributeModelWithPrediction.forward, cWithPred, cBatch, cSender, cReceiver,
    cPredictor, okLoss, okPredLoss, cHparams, cMsg, cWithPredTrainOut, pack,
    symbolSeqs, argmax, argmaxAux, countEq, effectiveLength, firstStop,
    startSymbols, List.replicate]

theorem cWithPred_validation_step_eq :
    cWithPred.validation_step cBatch ⟨true, true, true⟩ =
      .ok cWithPredValOut := by
  norm_num [AttributeModelWithPrediction.validation_step,
    AttributeModelWithPrediction.forward, cWithPred, cBatch, cSender, cReceiver,
    cPredictor, okLoss, okPredLoss, cHparams, cMsg, cWithPredValOut, pack,
    symbolSeqs, argmax, argmaxAux, countEq, effectiveLength, firstStop,
    startSymbols, List.replicate]

theorem baseline_receiverAccuracy_nonneg (m : AttributeBaseLineModel)
    (batch : Batch) : 0 ≤ m.receiverAccuracy batch :=
  div_nonneg (Nat.cast_nonneg _) (Nat.cast_nonneg _)

theorem baseline_receiverAccuracy_le_one (m : AttributeBaseLineModel)
    (batch : Batch) (hb : 1 ≤ batch.sender_img.length)
    (ht : batch.target.length = batch.sender_img.length) :
    m.receiverAccuracy batch ≤ 1 := by
  unfold AttributeBaseLineModel.receiverAccuracy
  rw [div_le_one (by exact_mod_cast Nat.lt_of_lt_of_le Nat.zero_lt_one hb)]
  exact_mod_cast (countEq_le_right _ _).trans (le_of_eq ht)

theorem withPred_receiverAccuracy_nonneg (m : AttributeModelWithPrediction)
    (batch : Batch) : 0 ≤ m.receiverAccuracy batch :=
  div_nonneg (Nat.cast_nonneg _) (Nat.cast_nonneg _)

theorem withPred_receiverAccuracy_le_one (m : AttributeModelWithPrediction)
    (batch : Batch) (hb : 1 ≤ batch.sender_img.length)
    (ht : batch.target.length = batch.sender_img.length) :
    m.receiverAccuracy batch ≤ 1 := by
  unfold AttributeModelWithPrediction.receiverAccuracy
  rw [div_le_one (by exact_mod_cast Nat.lt_of_lt_of_le Nat.zero_lt_one hb)]
  exact_mod_cast (countEq_le_right _ _).trans (le_of_eq ht)

theorem withPred_predictorAccuracy_nonneg (m : AttributeModelWithPrediction)
    (batch : Batch) : 0 ≤ m.predictorAccuracy batch :=
  div_nonneg (Nat.cast_nonneg _) (Nat.cast_nonneg _)

theorem withPred_predictorAccuracy_le_one (m : AttributeModelWithPrediction)
    (batch : Batch)
    (h : 1 ≤ ((m.fwd batch).msg.flatten.map argmax).length) :
    m.predictorAccuracy batch ≤ 1 := by
  unfold AttributeModelWithPrediction.predictorAccuracy
  rw [div_le_one (by exact_mod_cast Nat.lt_of_lt_of_le Nat.zero_lt_one h)]
  exact_mod_cast countEq_le_right _ _

/-! ## Claims -/

/-- C1: the Message Packer's effective length is `i + 1` when the
argmax-decoded sequence has its first stop symbol (index 0) at position `i`
and `max_len` when no position decodes to the stop symbol; the packed
lengths are the effective lengths of the batch-major decoded sequences; and
on the spec's scenario (`msg_len = 5`, `n_symbols = 3`, batch size 4,
sequence 0 with its only stop symbol at timestep 2, no stop elsewhere) the
reported lengths are `[3, 5, 5, 5]`. -/
theorem packer_effective_lengths :
    (∀ (maxLen : Nat) (seq : List Nat) (i : Nat),
        seq[i]? = some 0 → (∀ j, j < i → seq[j]? ≠ some 0) →
        effectiveLength maxLen seq = i + 1)
    ∧ (∀ (maxLen : Nat) (seq : List Nat),
        (∀ x ∈ seq, x ≠ 0) → effectiveLength maxLen seq = maxLen)
    ∧ (∀ (msg : Msg) (maxLen : Nat),
        (pack msg maxLen).lengths =
          (symbolSeqs msg).map (effectiveLength maxLen))
    ∧ (pack exampleMsg 5).lengths = [3, 5, 5, 5] := by
  refine ⟨?_, ?_, ?_, ?_⟩
  · intro maxLen seq i h0 hmin
    unfold effectiveLength
    rw [firstStop_eq_some seq i h0 hmin]
  · intro maxLen seq h
    unfold effectiveLength
    rw [firstStop_eq_none seq h]
  · intro msg maxLen
    rfl
  · decide

/-- C1 witness: a sequence whose first stop symbol sits at position 2 has
effective length 3. -/
theorem packer_effective_lengths_witness :
    effectiveLength 5 [1, 2, 0, 1, 1] = 3 :=
  packer_effective_lengths.1 5 [1, 2, 0, 1, 1] 2 (by decide) (by decide)

/-- C3: the baseline training step returns exactly the receiver loss, and
the with-prediction training step returns exactly
`loss_receiver + predictor_loss_weight * loss_predictor`, for any weight and
any pair of loss values the loss modules produce. -/
theorem loss_composition :
    (∀ (m : AttributeBaseLineModel) (batch : Batch) (lr : Scalar),
      m.loss_module (m.forward batch.sender_img batch.receiver_imgs).out_probs
          batch.target = .ok lr →
      ∃ r, m.training_step batch = .ok r ∧ r.loss = lr)
    ∧ (∀ (m : AttributeModelWithPrediction) (batch : Batch) (lp lr : Scalar),
      m.loss_module_predictor (m.predLossArgLogits batch)
          (m.predLossArgTarget batch) m.predLossIgnore = .ok lp →
      m.loss_module (m.fwd batch).out_probs batch.target = .ok lr →
      ∃ r, m.training_step batch = .ok r ∧ r.loss_predictor = lp ∧
        r.loss_receiver = lr ∧
        r.loss = lr + m.hparams.predictor_loss_weight * lp) := by
  constructor
  · intro m batch lr h
    refine ⟨⟨lr, m.receiverAccuracy batch,
      [("loss_receiver", lr), ("total_loss", lr),
       ("accuracy", m.receiverAccuracy batch)]⟩, ?_, rfl⟩
    rw [baseline_training_step_unfold, h]
  · intro m batch lp lr hp hr
    refine ⟨⟨lp, lr, lr + m.hparams.predictor_loss_weight * lp,
      m.predictorAccuracy batch, m.receiverAccuracy batch,
      [("accuracy predictor", m.predictorAccuracy batch),
       ("loss_predictor", lp), ("loss_receiver", lr),
       ("total_loss", lr + m.hparams.predictor_loss_weight * lp),
       ("accuracy", m.receiverAccuracy batch)]⟩, ?_, rfl, rfl, rfl⟩
    rw [withPred_training_step_unfold, hp, hr]

/-- C3 witness: with receiver loss 2, predictor loss 1 and weight 1/2, the
baseline step returns 2 and the with-prediction step returns 2 + 1/2 * 1. -/
theorem loss_composition_witness :
    (∃ r, cBaseline.training_step cBatch = .ok r ∧ r.loss = 2)
    ∧ (∃ r, cWithPred.training_step cBatch = .ok r ∧ r.loss_predictor = 1 ∧
        r.loss_receiver = 2 ∧
        r.loss = 2 + cWithPred.hparams.predictor_loss_weight * 1) :=
  ⟨loss_composition.1 cBaseline cBatch 2 rfl,
   loss_composition.2 cWithPred cBatch 1 2 rfl rfl⟩

/-- C4 counterexample: when the receiver loss module raises during a
baseline validation step entered with all networks in training mode, the
step exits on the error path with sender and receiver still in evaluation
mode — the restore calls are never reached. -/
theorem validation_mode_restoration_cex :
    cBaselineBad.validation_step cBatch ⟨true, true, true⟩ =
      Except.error ⟨false, false, true⟩ := rfl

/-- C4 (amended): on every non-raising exit path of a validation step, every
participating network's mode flag equals training mode. -/
theorem validation_mode_restoration :
    (∀ (m : AttributeBaseLineModel) (batch : Batch) (modes : Modes)
        (res : Modes × BaseStepOut),
      m.validation_step batch modes = .ok res →
      res.1.sender = true ∧ res.1.receiver = true)
    ∧ (∀ (m : AttributeModelWithPrediction) (batch : Batch) (modes : Modes)
        (res : Modes × PredStepOut),
      m.validation_step batch modes = .ok res →
      res.1.sender = true ∧ res.1.receiver = true ∧
        res.1.predictor = true) := by
  constructor
  · intro m batch modes res h
    rw [baseline_validation_step_unfold] at h
    split at h
    · simp at h
    · rename_i loss heq
      injection h with h2
      rw [← h2]
      exact ⟨rfl, rfl⟩
  · intro m batch modes res h
    rw [withPred_validation_step_unfold] at h
    split at h
    · simp at h
    · rename_i lp heq
      split at h
      · simp at h
      · rename_i lr heq2
        injection h with h2
        rw [← h2]
        exact ⟨rfl, rfl, rfl⟩

/-- C4 witness: both concrete validation steps succeed and exit with every
participating network back in training mode. -/
theorem validation_mode_restoration_witness :
    (cBaselineValOut.1.sender = true ∧ cBaselineValOut.1.receiver = true)
    ∧ (cWithPredValOut.1.sender = true ∧ cWithPredValOut.1.receiver = true ∧
        cWithPredValOut.1.predictor = true) :=
  ⟨validation_mode_restoration.1 cBaseline cBatch ⟨true, true, true⟩
      cBaselineValOut cBaseline_validation_step_eq,
   validation_mode_restoration.2 cWithPred cBatch ⟨true, true, true⟩
      cWithPredValOut cWithPred_validation_step_eq⟩

/-- C5: the Merged variant's training step destructures the 6-tuple returned
by `forward` into 5 names, so on every batch it raises the unpacking
`ValueError` before computing any loss and never returns a total loss. -/
theorem merged_training_step_unpack_error (m : AttributeModelMerged)
    (batch : Batch) :
    m.training_step batch = Except.error PyError.valueError := rfl

/-- C6: in the Merged forward pass the message is always packed —
unconditionally, with no configuration flag — and the receiver is invoked
with the predictor's final hidden state, never with the raw or packed
message. -/
theorem merged_receiver_consumes_hidden (m : AttributeModelMerged)
    (img : List Image) (ch : Choices) :
    (m.forward img ch).packed_msg =
      pack (m.sender.forward img) m.sender.msg_len
    ∧ (m.forward img ch).receiver_input =
        ReceiverInput.hiddenState
          (m.predictor.forward (startSymbols img.length m.sender.n_symbols ::
            m.sender.forward img)).2.2
    ∧ ((m.forward img ch).out, (m.forward img ch).out_probs) =
        m.receiver.forward ch (ReceiverInput.hiddenState
          (m.predictor.forward (startSymbols img.length m.sender.n_symbols ::
            m.sender.forward img)).2.2)
    ∧ (∀ mm : Msg, (m.forward img ch).receiver_input ≠ ReceiverInput.raw mm)
    ∧ (∀ p : PackedMsg,
        (m.forward img ch).receiver_input ≠ ReceiverInput.packed p) := by
  refine ⟨rfl, rfl, rfl, ?_, ?_⟩
  · intro mm h
    simp [AttributeModelMerged.forward] at h
  · intro p h
    simp [AttributeModelMerged.forward] at h

/-- C6 witness: the concrete merged model packs its message and hands the
receiver the predictor's hidden state. -/
theorem merged_receiver_consumes_hidden_witness :
    (cMerged.forward [[0]] []).packed_msg =
      pack (cMerged.sender.forward [[0]]) cMerged.sender.msg_len :=
  (merged_receiver_consumes_hidden cMerged [[0]] []).1

/-- C8: each variant's `configure_optimizers` builds one optimizer over
exactly the union of the parameters of that variant's active networks:
sender and receiver for the baseline, and sender, receiver and predictor for
the with-prediction and merged variants. -/
theorem optimizer_parameter_union :
    (∀ (m : AttributeBaseLineModel) (p : Nat),
      p ∈ m.configure_optimizers.params ↔
        p ∈ m.sender.params ∨ p ∈ m.receiver.params)
    ∧ (∀ (m : AttributeModelWithPrediction) (p : Nat),
      p ∈ m.configure_optimizers.params ↔
        p ∈ m.sender.params ∨ p ∈ m.receiver.params ∨ p ∈ m.predictor.params)
    ∧ (∀ (m : AttributeModelMerged) (p : Nat),
      p ∈ m.configure_optimizers.params ↔
        p ∈ m.sender.params ∨ p ∈ m.receiver.params ∨
          p ∈ m.predictor.params) := by
  refine ⟨?_, ?_, ?_⟩
  · intro m p
    simp [AttributeBaseLineModel.configure_optimizers, List.mem_append]
  · intro m p
    simp [AttributeModelWithPrediction.configure_optimizers, List.mem_append,
      or_assoc]
  · intro m p
    simp [AttributeModelMerged.configure_optimizers, List.mem_append,
      or_assoc]

/-- C2: in both predictor-bearing forward passes a zero start frame is
prepended, the predictor runs over the extended sequence and its final
timestep is dropped, so the prediction logits and probs have exactly
`msg_len` timesteps (whenever the predictor preserves sequence length); and
flattening time and batch together aligns position `t * B + b` of the loss
arguments with `Message[t][b]` and `prediction_logits[t][b]`, so prediction
position `t` is trained against `Message[t]`. -/
theorem shift_alignment :
    (∀ (m : AttributeModelWithPrediction) (img : List Image) (ch : Choices),
      (m.sender.forward img).length = m.sender.msg_len →
      ((m.predictor.forward (startSymbols img.length m.sender.n_symbols ::
          m.sender.forward img)).1).length =
        (m.sender.forward img).length + 1 →
      ((m.predictor.forward (startSymbols img.length m.sender.n_symbols ::
          m.sender.forward img)).2.1).length =
        (m.sender.forward img).length + 1 →
      (m.forward img ch).prediction_logits.length = m.sender.msg_len ∧
      (m.forward img ch).prediction_probs.length = m.sender.msg_len)
    ∧ (∀ (m : AttributeModelMerged) (img : List Image) (ch : Choices),
      (m.sender.forward img).length = m.sender.msg_len →
      ((m.predictor.forward (startSymbols img.length m.sender.n_symbols ::
          m.sender.forward img)).1).length =
        (m.sender.forward img).length + 1 →
      ((m.predictor.forward (startSymbols img.length m.sender.n_symbols ::
          m.sender.forward img)).2.1).length =
        (m.sender.forward img).length + 1 →
      (m.forward img ch).prediction_logits.length = m.sender.msg_len ∧
      (m.forward img ch).prediction_probs.length = m.sender.msg_len)
    ∧ (∀ (m : AttributeModelWithPrediction) (batch : Batch) (B t b : Nat),
      (∀ ts ∈ (m.fwd batch).msg, ts.length = B) →
      (∀ ts ∈ (m.fwd batch).prediction_logits, ts.length = B) →
      t < (m.fwd batch).msg.length →
      t < (m.fwd batch).prediction_logits.length →
      b < B →
      (m.predLossArgTarget batch)[t * B + b]? =
        ((m.fwd batch).msg[t]?).bind (fun row => row[b]?) ∧
      (m.predLossArgLogits batch)[t * B + b]? =
        ((m.fwd batch).prediction_logits[t]?).bind (fun row => row[b]?)) := by
  refine ⟨?_, ?_, ?_⟩
  · intro m img ch hlen h1 h2
    have hpl : (m.forward img ch).prediction_logits =
        ((m.predictor.forward (startSymbols img.length m.sender.n_symbols ::
          m.sender.forward img)).1).dropLast := by
      simp only [AttributeModelWithPrediction.forward]
      split <;> rfl
    have hpp : (m.forward img ch).prediction_probs =
        ((m.predictor.forward (startSymbols img.length m.sender.n_symbols ::
          m.sender.forward img)).2.1).dropLast := by
      simp only [AttributeModelWithPrediction.forward]
      split <;> rfl
    constructor
    · rw [hpl, List.length_dropLast, h1, Nat.add_sub_cancel, hlen]
    · rw [hpp, List.length_dropLast, h2, Nat.add_sub_cancel, hlen]
  · intro m img ch hlen h1 h2
    constructor
    · show ((m.predictor.forward (startSymbols img.length m.sender.n_symbols ::
          m.sender.forward img)).1).dropLast.length = m.sender.msg_len
      rw [List.length_dropLast, h1, Nat.add_sub_cancel, hlen]
    · show ((m.predictor.forward (startSymbols img.length m.sender.n_symbols ::
          m.sender.forward img)).2.1).dropLast.length = m.sender.msg_len
      rw [List.length_dropLast, h2, Nat.add_sub_cancel, hlen]
  · intro m batch B t b hrm hrp htm htp hb
    exact ⟨flatten_getElem_rect _ B hrm t b htm hb,
      flatten_getElem_rect _ B hrp t b htp hb⟩

/-- C2 witness: for the concrete with-prediction model the prediction has
exactly `msg_len = 1` timesteps and flattened position 0 is the message's
timestep 0, batch element 0. -/
theorem shift_alignment_witness :
    (cWithPred.forward [[0]] []).prediction_logits.length = 1 ∧
    (cWithPred.predLossArgTarget cBatch)[0 * 1 + 0]? =
      ((cWithPred.fwd cBatch).msg[0]?).bind (fun row => row[0]?) :=
  ⟨(shift_alignment.1 cWithPred [[0]] [] (by decide) (by decide)
      (by decide)).1,
   (shift_alignment.2.2 cWithPred cBatch 1 0 0 (by decide) (by decide)
      (by decide) (by decide) (by decide)).1⟩

/-- C7: whenever the with-prediction variant computes the predictor loss (in
its training step and in its validation step) it passes
`ignore_index = n_symbols - 1`, which is not the stop-symbol index 0 when
`n_symbols ≥ 2`; the Merged training-step body passes no ignore index at
all. -/
theorem predictor_ignore_index :
    (∀ (m : AttributeModelWithPrediction) (batch : Batch) (r : PredStepOut),
      m.training_step batch = .ok r →
      m.loss_module_predictor (m.predLossArgLogits batch)
        (m.predLossArgTarget batch)
        (some ((m.sender.n_symbols : ℤ) - 1)) = .ok r.loss_predictor)
    ∧ (∀ (m : AttributeModelWithPrediction) (batch : Batch) (modes : Modes)
        (res : Modes × PredStepOut),
      m.validation_step batch modes = .ok res →
      m.loss_module_predictor (m.predLossArgLogits batch)
        (m.predLossArgTarget batch)
        (some ((m.sender.n_symbols : ℤ) - 1)) = .ok res.2.loss_predictor)
    ∧ (∀ (m : AttributeModelMerged) (batch : Batch) (msg : Msg) (o op : Out)
        (pl pp : Msg) (r : PredStepOut),
      m.training_step_body batch (.tensor3 msg) (.tensor2 o) (.tensor2 op)
          (.tensor3 pl) (.tensor3 pp) = .ok r →
      m.loss_module_predictor pl.flatten msg.flatten none =
        .ok r.loss_predictor)
    ∧ (∀ (m : AttributeModelWithPrediction), 2 ≤ m.sender.n_symbols →
        m.predLossIgnore ≠ some 0) := by
  refine ⟨?_, ?_, ?_, ?_⟩
  · intro m batch r h
    rw [withPred_training_step_unfold] at h
    split at h
    · simp at h
    · rename_i lp heq
      split at h
      · simp at h
      · rename_i lr heq2
        injection h with h2
        rw [← h2]
        exact heq
  · intro m batch modes res h
    rw [withPred_validation_step_unfold] at h
    split at h
    · simp at h
    · rename_i lp heq
      split at h
      · simp at h
      · rename_i lr heq2
        injection h with h2
        rw [← h2]
        exact heq
  · intro m batch msg o op pl pp r h
    rw [merged_body_unfold] at h
    split at h
    · simp at h
    · rename_i lp heq
      split at h
      · simp at h
      · rename_i lr heq2
        injection h with h2
        rw [← h2]
        cases hc : m.loss_module_predictor pl.flatten msg.flatten none with
        | error u =>
          rw [hc] at heq
          simp [Except.mapError] at heq
        | ok v =>
          rw [hc] at heq
          simp [Except.mapError] at heq
          simp [heq]
  · intro m h
    simp only [AttributeModelWithPrediction.predLossIgnore, ne_eq,
      Option.some.injEq]
    omega

/-- C7 witness: the concrete with-prediction model's predictor loss is
computed with ignore index `n_symbols - 1 = 1`, which differs from the
stop-symbol index 0. -/
theorem predictor_ignore_index_witness :
    cWithPred.loss_module_predictor (cWithPred.predLossArgLogits cBatch)
        (cWithPred.predLossArgTarget cBatch)
        (some ((cWithPred.sender.n_symbols : ℤ) - 1)) =
      .ok cWithPredTrainOut.loss_predictor
    ∧ cWithPred.predLossIgnore ≠ some 0 :=
  ⟨predictor_ignore_index.1 cWithPred cBatch cWithPredTrainOut
      cWithPred_training_step_eq,
   predictor_ignore_index.2.2.2 cWithPred (by decide)⟩

/-- C9: for any batch with batch size at least 1 (and, for the predictor
accuracy, `msg_len` at least 1 with a well-shaped message), the accuracy
divisors are nonzero and both the receiver and predictor accuracies lie in
`[0, 1]`. -/
theorem accuracy_bounds :
    (∀ (m : AttributeBaseLineModel) (batch : Batch) (r : BaseStepOut),
      1 ≤ batch.sender_img.length →
      batch.target.length = batch.sender_img.length →
      m.training_step batch = .ok r →
      (batch.sender_img.length : Scalar) ≠ 0 ∧
      0 ≤ r.accuracy ∧ r.accuracy ≤ 1)
    ∧ (∀ (m : AttributeModelWithPrediction) (batch : Batch) (r : PredStepOut),
      1 ≤ batch.sender_img.length →
      batch.target.length = batch.sender_img.length →
      1 ≤ m.sender.msg_len →
      (m.fwd batch).msg.length = m.sender.msg_len →
      (∀ ts ∈ (m.fwd batch).msg, ts.length = batch.sender_img.length) →
      m.training_step batch = .ok r →
      (batch.sender_img.length : Scalar) ≠ 0 ∧
      (((m.fwd batch).msg.flatten.map argmax).length : Scalar) ≠ 0 ∧
      0 ≤ r.accuracy ∧ r.accuracy ≤ 1 ∧
      0 ≤ r.predictor_accuracy ∧ r.predictor_accuracy ≤ 1) := by
  constructor
  · intro m batch r hb ht h
    rw [baseline_training_step_unfold] at h
    split at h
    · simp at h
    · rename_i loss heq
      injection h with h2
      rw [← h2]
      exact ⟨Nat.cast_ne_zero.mpr (by omega),
        baseline_receiverAccuracy_nonneg m batch,
        baseline_receiverAccuracy_le_one m batch hb ht⟩
  · intro m batch r hb ht hm hmlen hrect h
    have hlen1 : 1 ≤ ((m.fwd batch).msg.flatten.map argmax).length := by
      rw [List.length_map, flatten_length_rect _ _ hrect, hmlen]
      have h11 : 1 * 1 ≤ m.sender.msg_len * batch.sender_img.length :=
        Nat.mul_le_mul hm hb
      simpa using h11
    rw [withPred_training_step_unfold] at h
    split at h
    · simp at h
    · rename_i lp heq
      split at h
      · simp at h
      · rename_i lr heq2
        injection h with h2
        rw [← h2]
        exact ⟨Nat.cast_ne_zero.mpr (by omega),
          Nat.cast_ne_zero.mpr (by omega),
          withPred_receiverAccuracy_nonneg m batch,
          withPred_receiverAccuracy_le_one m batch hb ht,
          withPred_predictorAccuracy_nonneg m batch,
          withPred_predictorAccuracy_le_one m batch hlen1⟩

/-- C9 witness: the concrete steps' accuracies are well-defined and lie in
`[0, 1]`. -/
theorem accuracy_bounds_witness :
    (0 ≤ cBaselineTrainOut.accuracy ∧ cBaselineTrainOut.accuracy ≤ 1)
    ∧ (0 ≤ cWithPredTrainOut.predictor_accuracy ∧
        cWithPredTrainOut.predictor_accuracy ≤ 1) := by
  have h1 := accuracy_bounds.1 cBaseline cBatch cBaselineTrainOut
    (by decide) (by decide) cBaseline_training_step_eq
  have h2 := accuracy_bounds.2 cWithPred cBatch cWithPredTrainOut
    (by decide) (by decide) (by decide) (by decide) (by decide)
    cWithPred_training_step_eq
  exact ⟨⟨h1.2.1, h1.2.2⟩, ⟨h2.2.2.2.2.1, h2.2.2.2.2.2⟩⟩

/-- C10: whenever the with-prediction training step succeeds, the validation
step on the same batch performs the identical computation — same predictor
loss, receiver loss, total loss and both accuracies — exits with all three
networks in training mode, and logs the same values under the
validation-marked metric names, while the training step logs them under the
unmarked names. -/
theorem validation_matches_training (m : AttributeModelWithPrediction)
    (batch : Batch) (modes : Modes) (r : PredStepOut)
    (h : m.training_step batch = .ok r) :
    m.validation_step batch modes =
      .ok (⟨true, true, true⟩,
        ⟨r.loss_predictor, r.loss_receiver, r.loss, r.predictor_accuracy,
         r.accuracy,
         [("val accuracy predictor", r.predictor_accuracy),
          ("val_loss_predictor", r.loss_predictor),
          ("val_loss_receiver", r.loss_receiver),
          ("val_total_loss", r.loss),
          ("val_accuracy", r.accuracy)]⟩)
    ∧ r.logs =
      [("accuracy predictor", r.predictor_accuracy),
       ("loss_predictor", r.loss_predictor),
       ("loss_receiver", r.loss_receiver),
       ("total_loss", r.loss),
       ("accuracy", r.accuracy)] := by
  rw [withPred_training_step_unfold] at h
  split at h
  · simp at h
  · rename_i lp heq
    split at h
    · simp at h
    · rename_i lr heq2
      injection h with h2
      rw [← h2]
      constructor
      · rw [withPred_validation_step_unfold, heq, heq2]
      · rfl

/-- C10 witness: on the concrete model and batch, the validation step
reproduces the training step's numbers with validation-marked log names and
restores training mode. -/
theorem validation_matches_training_witness :
    cWithPred.validation_step cBatch ⟨false, true, false⟩ =
      .ok (⟨true, true, true⟩,
        ⟨cWithPredTrainOut.loss_predictor, cWithPredTrainOut.loss_receiver,
         cWithPredTrainOut.loss, cWithPredTrainOut.predictor_accuracy,
         cWithPredTrainOut.accuracy,
         [("val accuracy predictor", cWithPredTrainOut.predictor_accuracy),
          ("val_loss_predictor", cWithPredTrainOut.loss_predictor),
          ("val_loss_receiver", cWithPredTrainOut.loss_receiver),
          ("val_total_loss", cWithPredTrainOut.loss),
          ("val_accuracy", cWithPredTrainOut.accuracy)]⟩)
    ∧ cWithPredTrainOut.logs =
      [("accuracy predictor", cWithPredTrainOut.predictor_accuracy),
       ("loss_predictor", cWithPredTrainOut.loss_predictor),
       ("loss_receiver", cWithPredTrainOut.loss_receiver),
       ("total_loss", cWithPredTrainOut.loss),
       ("accuracy", cWithPredTrainOut.accuracy)] :=
  validation_matches_training cWithPred cBatch ⟨false, true, false⟩
    cWithPredTrainOut cWithPred_training_step_eq

end AttributeGame
